import Mathlib

/-!
Verification of the `protoc-prebuilt` resolution-and-acquisition engine.

The Rust sources are shallowly embedded: strings are Lean `String`s,
fallible functions return `Except Error`, filesystem paths produced by
`PathBuf::push`/`pop` are component lists, and the effectful install
protocol is modelled as a pure function of an explicit `World` that
records the outcome of every external call and returns the trace of
performed effects.
-/

namespace Protoc

/-! ### Rust `str` primitives -/

/-- Rust `str::split_once(pat)` on character lists: split at the first
occurrence of `pat`, dropping the pattern itself. -/
def splitOnceList (pat : List Char) : List Char → Option (List Char × List Char)
  | [] => if pat.isEmpty then some ([], []) else none
  | c :: rest =>
    if pat.isPrefixOf (c :: rest) then
      some ([], (c :: rest).drop pat.length)
    else
      match splitOnceList pat rest with
      | some (pre, post) => some (c :: pre, post)
      | none => none

/-- Rust `str::split_once`. -/
def split_once (s pat : String) : Option (String × String) :=
  match splitOnceList pat.data s.data with
  | some (pre, post) => some (String.mk pre, String.mk post)
  | none => none

/-- Rust `str::contains(pat)`: `pat` occurs as a substring of `s`,
equivalently the first-occurrence split succeeds. -/
def strContains (s pat : String) : Bool :=
  (splitOnceList pat.data s.data).isSome

/-- Rust `str::starts_with(pat)`. -/
def strStartsWith (s pat : String) : Bool :=
  pat.data.isPrefixOf s.data

/-- Rust `version.get(0..4)`: the first four characters when the string is
long enough (all version strings are ASCII, so bytes coincide with chars). -/
def str_get_to_4 (s : String) : Option String :=
  if 4 ≤ s.data.length then some (String.mk (s.data.take 4)) else none

/-! ### `error.rs`: the error enumeration -/

/-- Embedding of `Error` from `src/error.rs` (payloads of the wrapped
foreign errors `VarError`/`Io`/`Ureq`/`Zip` are reduced to tags or
messages; the engine never inspects them). -/
inductive Error where
  | NotProvidedPlatform : Error
  | NonExistsVersion (version : String) : Error
  | NonExistsPlatformVersion (version : String) : Error
  | VersionCheck (required returned : String) : Error
  | GitHubApi (status : Nat) (body : String) : Error
  | ForcePath (message : String) : Error
  | VarError : Error
  | Io : Error
  | Ureq : Error
  | Zip : Error
deriving DecidableEq, Repr

/-! ### `version.rs` -/

/-- Embedding of `prepare_asset_version` from `src/version.rs` lines 17-37:
map a requested version to the version substring used in asset names.
The `none` arm of the final match is unreachable because the first branch
guarantees the string contains `"rc"`. -/
def prepare_asset_version (version : String) : String :=
  if !(strContains version "rc") then version
  else if version = "3.7.0-rc.3" then "3.7.0-rc-3"
  else if version = "3.7.0rc2" then "3.7.0-rc-2"
  else if version = "3.7.0rc1" then "3.7.0-rc1"
  else if version = "3.2.0rc2" then "3.2.0rc2"
  else
    match split_once version "rc" with
    | some parts => parts.1 ++ "rc-" ++ parts.2
    | none => version

/-- Embedding of `compare_versions` from `src/version.rs` lines 56-102:
compare the required version with the version self-reported by running the
binary with `--version`.  The Rust early-return chain becomes an
if-else chain. -/
def compare_versions (required returned : String) : Bool :=
  -- Protobuf errors
  if (required == "3.0.2" && returned == "3.0.0") ||
     (required == "3.10.0-rc1" && returned == "30.10.0") ||
     (required == "3.12.2" && returned == "3.12.1") ||
     (required == "3.19.0-rc2" && returned == "3.19.0-rc1") ||
     (returned == "" && (required == "21.0-rc1" || required == "21.0-rc2")) then
    true
  -- Non default `rc` versions names
  else if (required == "3.2.0rc2" && returned == "3.2.0") ||
          ((required == "3.7.0rc1" || required == "3.7.0rc2" ||
            required == "3.7.0-rc.3") && returned == "3.7.0") then
    true
  -- Old `rc` versions
  else if strContains required "-rc" &&
          (strStartsWith required "3.8." || strStartsWith required "3.9." ||
           strStartsWith required "3.10." || strStartsWith required "3.11." ||
           strStartsWith required "3.12." || strStartsWith required "3.13.") then
    match split_once required "-rc" with
    | some parts => parts.1 == returned
    | none => false
  -- 21.* versions
  else if strStartsWith required "21." then
    ("3." ++ required) == returned
  -- Alpha and beta versions
  else if (required == "3.0.0-alpha-1" || required == "3.0.0-alpha-2" ||
           required == "3.0.0-alpha-3" ||
           required == "3.0.0-beta-1" || required == "3.0.0-beta-2" ||
           required == "3.0.0-beta-3" || required == "3.0.0-beta-4") &&
          returned == "3.0.0" then
    true
  else
    required == returned

/-- The `asset_os` table of `get_protoc_asset_name` (`src/version.rs`
lines 116-121): OS spelling used inside asset names, `none` for an
unsupported OS. -/
def asset_os (os : String) : Option String :=
  match os with
  | "linux" => some "linux"
  | "macos" => some "osx"
  | "windows" => some "win"
  | _ => none

/-- The linux/s390x sub-match of `get_protoc_asset_name` (`src/version.rs`
lines 128-132), keyed on `version.get(0..4)`. -/
def s390x_asset_arch (version : String) : String :=
  match str_get_to_4 version with
  | some p =>
    if p = "3.10" ∨ p = "3.11" then "s390x_64"
    else if p = "3.12" ∨ p = "3.13" ∨ p = "3.14" ∨ p = "3.15" then "s390x"
    else "s390_64"
  | none => "s390_64"

/-- The `asset_arch` table of `get_protoc_asset_name` (`src/version.rs`
lines 124-152): architecture spelling by (OS, architecture) with
version-dependent overrides, `none` for an unsupported pair. -/
def asset_arch (version os arch : String) : Option String :=
  match os with
  | "linux" =>
    match arch with
    | "aarch64" => some "aarch_64"
    | "powerpc64" => some "ppcle_64"
    | "s390x" => some (s390x_asset_arch version)
    | "x86" => if version = "3.0.0-beta-4" then some "x86-32" else some "x86_32"
    | "x86_64" => some "x86_64"
    | _ => none
  | "macos" =>
    match arch with
    | "aarch64" => some "aarch_64"
    | "x86" => some "x86_32"
    | "x86_64" => some "x86_64"
    | _ => none
  | "windows" =>
    match arch with
    | "x86" => some "32"
    | "x86_64" => some "64"
    | _ => none
  | _ => none

/-- The `os_arch_delimiter` table of `get_protoc_asset_name`
(`src/version.rs` lines 155-158): windows builds have no separator between
OS and architecture. -/
def os_arch_delimiter (os : String) : String :=
  match os with
  | "windows" => ""
  | _ => "-"

/-- Embedding of `get_protoc_asset_name` from `src/version.rs`
lines 112-163: format the pre-built package name
`protoc-$VERSION-$PLATFORM`. -/
def get_protoc_asset_name (version os arch : String) : Except Error String :=
  match asset_os os with
  | none => .error .NotProvidedPlatform
  | some aos =>
    match asset_arch version os arch with
    | none => .error .NotProvidedPlatform
    | some aarch =>
      .ok ("protoc-" ++ prepare_asset_version version ++ "-" ++ aos ++
           os_arch_delimiter os ++ aarch)

/-! ### `path.rs` -/

/-- Embedding of `is_binary_in_root` from `src/path.rs` lines 12-17:
the versions whose asset places the binary in the asset root. -/
def is_binary_in_root (version : String) : Bool :=
  version == "2.4.1" || version == "2.5.0" || version == "2.6.0" || version == "2.6.1" ||
  version == "3.0.0-alpha-1" || version == "3.0.0-alpha-2" || version == "3.0.0-alpha-3" ||
  version == "3.0.0-beta-1" || version == "3.0.0-beta-2" ||
  version == "3.0.0-beta-3" || version == "3.0.0-beta-4"

/-- The binary file name pushed by `get_bin_path` (`src/path.rs` line 32):
`protoc` with the platform executable suffix.  The Rust code reads the
compile-time constant `OS`; it is passed here as a parameter. -/
def protoc_binary_name (os : String) : String :=
  "protoc" ++ (match os with | "windows" => ".exe" | _ => "")

/-- Embedding of `get_bin_path` from `src/path.rs` lines 23-35.  A
`PathBuf` is modelled as its list of components; `push` appends a
component. -/
def get_bin_path (os version : String) (protoc_out_dir : List String) : List String :=
  let protoc_bin := protoc_out_dir
  let protoc_bin :=
    if !(is_binary_in_root version) then protoc_bin ++ ["bin"] else protoc_bin
  protoc_bin ++ [protoc_binary_name os]

/-- Embedding of `get_include_path` from `src/path.rs` lines 42-55.
`PathBuf::pop` drops the last component. -/
def get_include_path (version : String) (protoc_bin : List String) : List String :=
  let protoc_include := protoc_bin.dropLast
  if !(is_binary_in_root version) then protoc_include.dropLast ++ ["include"]
  else protoc_include

/-! ### `force.rs` -/

/-- Result of `std::fs::metadata` on an existing path: a regular file, a
directory, or some other kind of filesystem entry. -/
inductive Metadata where
  | file : Metadata
  | dir : Metadata
  | otherKind : Metadata
deriving DecidableEq, Repr

/-- `std::env::VarError`. -/
inductive VarErr where
  | notPresent : VarErr
  | notUnicode : VarErr
deriving DecidableEq, Repr

/-- Embedding of `check_force_bin` from `src/force.rs` lines 5-28.  The
filesystem is abstracted by `fs`, returning `none` when `metadata` fails
(path does not exist) and the entry kind otherwise. -/
def check_force_bin (env_var_value : Except VarErr String)
    (fs : String → Option Metadata) : Except Error (Option String) :=
  match env_var_value with
  | .ok force_protoc_path =>
    match fs force_protoc_path with
    | none =>
      .error (.ForcePath
        ("nothing exists by PROTOC_PREBUILT_FORCE_PROTOC_PATH path " ++ force_protoc_path))
    | some attr =>
      if attr = .dir then
        .error (.ForcePath
          ("directory found by PROTOC_PREBUILT_FORCE_PROTOC_PATH path " ++ force_protoc_path))
      else
        .ok (some force_protoc_path)
  | .error _ => .ok none

/-- Embedding of `check_force_include` from `src/force.rs` lines 31-54. -/
def check_force_include (env_var_value : Except VarErr String)
    (fs : String → Option Metadata) : Except Error (Option String) :=
  match env_var_value with
  | .ok force_include_path =>
    match fs force_include_path with
    | none =>
      .error (.ForcePath
        ("nothing exists by PROTOC_PREBUILT_FORCE_INCLUDE_PATH path " ++ force_include_path))
    | some attr =>
      if attr = .file then
        .error (.ForcePath
          ("file found by PROTOC_PREBUILT_FORCE_INCLUDE_PATH path " ++ force_include_path))
      else
        .ok (some force_include_path)
  | .error _ => .ok none

/-- Substring containment, used to state the guarantees on the
`ForcePath` error messages. -/
def HasSubstring (s pat : String) : Prop :=
  ∃ pre post, s = pre ++ pat ++ post

/-! ### `install.rs` and `lib.rs`: the effectful install protocol

The outcome of every external call is drawn from an explicit `World`;
the functions additionally return the trace of effects they performed,
so "zero network requests" is a statement about the returned trace. -/

/-- Result of one HTTP GET: `Ok(response)` with its body, an HTTP error
status with its body text, or a transport failure. -/
inductive HttpResult where
  | success (body : String) : HttpResult
  | status (code : Nat) (body : String) : HttpResult
  | transport : HttpResult
deriving DecidableEq, Repr

/-- One observable external effect of the install protocol. -/
inductive Effect where
  | request (url : String) : Effect
  | removeFile (path : String) : Effect
  | createFile (path : String) : Effect
  | writeFile (path : String) : Effect
  | extract (dir : String) : Effect
deriving DecidableEq, Repr

/-- The environment of one `init` call: HTTP responses per URL, filesystem
existence, the `OUT_DIR` variable, and success of each local I/O step. -/
structure World where
  http : String → HttpResult
  pathExists : String → Bool
  out_dir : Option String
  removeOk : String → Bool
  openOk : String → Bool
  copyOk : Bool
  zipOk : Bool
  extractOk : String → Bool

/-- `Path::join`, on string paths. -/
def joinPath (a b : String) : String := a ++ "/" ++ b

/-- URL of the release-tag existence query (`src/install.rs` line 9). -/
def version_tag_url (version : String) : String :=
  "https://api.github.com/repos/protocolbuffers/protobuf/releases/tags/v" ++ version

/-- URL of the asset download (`src/install.rs` lines 32-33). -/
def asset_download_url (version file_name : String) : String :=
  "https://github.com/protocolbuffers/protobuf/releases/download/v" ++
    version ++ "/" ++ file_name

/-- Embedding of `check_version_exists` from `src/install.rs` lines 7-24:
query the release tag and interpret the HTTP status.  Reading the error
response body (`into_string`) is modelled as always yielding the body. -/
def check_version_exists (w : World) (version : String) :
    Except Error Unit × List Effect :=
  let url := version_tag_url version
  (match w.http url with
   | .success _ => .ok ()
   | .status code body =>
     if code = 404 then .error (.NonExistsVersion version)
     else .error (.GitHubApi code body)
   | .transport => .error .Ureq,
   [.request url])

/-- Embedding of `download` from `src/install.rs` lines 27-49: request the
platform-specific asset and interpret the HTTP status. -/
def download (w : World) (version protoc_asset_file_name : String) :
    Except Error String × List Effect :=
  let url := asset_download_url version protoc_asset_file_name
  (match w.http url with
   | .success body => .ok body
   | .status code body =>
     if code = 404 then .error (.NonExistsPlatformVersion version)
     else .error (.GitHubApi code body)
   | .transport => .error .Ureq,
   [.request url])

/-- Embedding of `install` from `src/install.rs` lines 52-88 (identical,
up to authorization headers, to `install` in `src/lib.rs` lines 137-197):
remote existence check, asset download, stale-archive removal, archive
write, extraction, archive cleanup. -/
def install (w : World) (version out_dir protoc_asset_name protoc_out_dir : String) :
    Except Error Unit × List Effect :=
  match check_version_exists w version with
  | (.error e, effs) => (.error e, effs)
  | (.ok _, effs1) =>
    let protoc_asset_file_name := protoc_asset_name ++ ".zip"
    match download w version protoc_asset_file_name with
    | (.error e, effs2) => (.error e, effs1 ++ effs2)
    | (.ok _, effs2) =>
      let effs := effs1 ++ effs2
      let protoc_asset_file_path := joinPath out_dir protoc_asset_file_name
      -- Remove previous asset file
      if w.pathExists protoc_asset_file_path ∧ !(w.removeOk protoc_asset_file_path) then
        (.error .Io, effs ++ [.removeFile protoc_asset_file_path])
      else
        let effs :=
          if w.pathExists protoc_asset_file_path then
            effs ++ [Effect.removeFile protoc_asset_file_path]
          else effs
        -- Create asset file
        if !(w.openOk protoc_asset_file_path) then
          (.error .Io, effs ++ [.createFile protoc_asset_file_path])
        else
          let effs := effs ++ [Effect.createFile protoc_asset_file_path]
          -- Write content to file
          if !w.copyOk then
            (.error .Io, effs ++ [.writeFile protoc_asset_file_path])
          else
            let effs := effs ++ [Effect.writeFile protoc_asset_file_path]
            -- Extract archive and delete file
            if !w.zipOk then (.error .Zip, effs)
            else if !(w.extractOk protoc_out_dir) then
              (.error .Zip, effs ++ [.extract protoc_out_dir])
            else
              let effs := effs ++ [Effect.extract protoc_out_dir]
              if w.removeOk protoc_asset_file_path then
                (.ok (), effs ++ [.removeFile protoc_asset_file_path])
              else
                (.error .Io, effs ++ [.removeFile protoc_asset_file_path])

/-- Embedding of `init` from `src/lib.rs` lines 207-226: read `OUT_DIR`,
resolve the asset name, install only when the install directory does not
exist, and return the binary and include paths.  The compile-time
constants `OS` and `ARCH` are parameters. -/
def init (w : World) (os arch version : String) :
    Except Error (String × String) × List Effect :=
  match w.out_dir with
  | none => (.error .VarError, [])
  | some out_dir =>
    match get_protoc_asset_name version os arch with
    | .error e => (.error e, [])
    | .ok protoc_asset_name =>
      let protoc_out_dir := joinPath out_dir protoc_asset_name
      -- Install if installation directory doesn't exist
      let step :=
        if !(w.pathExists protoc_out_dir) then
          install w version out_dir protoc_asset_name protoc_out_dir
        else (.ok (), [])
      match step with
      | (.error e, effs) => (.error e, effs)
      | (.ok _, effs) =>
        let protoc_bin := joinPath (joinPath protoc_out_dir "bin")
          (protoc_binary_name os)
        let protoc_include := joinPath protoc_out_dir "include"
        (.ok (protoc_bin, protoc_include), effs)

/-! ### Spec claims -/

/-- The eleven historical versions whose asset places the binary directly
in the install root (`src/path.rs` comment and `is_binary_in_root`). -/
def legacy_versions : List String :=
  ["2.4.1", "2.5.0", "2.6.0", "2.6.1",
   "3.0.0-alpha-1", "3.0.0-alpha-2", "3.0.0-alpha-3",
   "3.0.0-beta-1", "3.0.0-beta-2", "3.0.0-beta-3", "3.0.0-beta-4"]

/-- C1: for the documented support-matrix triples the Asset Name Resolver
returns exactly the documented literal strings:
`("22.0","linux","x86")` gives `protoc-22.0-linux-x86_32`,
`("22.0-rc3","macos","aarch64")` gives `protoc-22.0-rc-3-osx-aarch_64`,
and `("21.12","windows","x86_64")` gives `protoc-21.12-win64`. -/
theorem c1_asset_name_golden_vectors :
    get_protoc_asset_name "22.0" "linux" "x86" = .ok "protoc-22.0-linux-x86_32" ∧
    get_protoc_asset_name "22.0-rc3" "macos" "aarch64" =
      .ok "protoc-22.0-rc-3-osx-aarch_64" ∧
    get_protoc_asset_name "21.12" "windows" "x86_64" = .ok "protoc-21.12-win64" :=
  ⟨rfl, rfl, rfl⟩

/-- C5: the Version Comparator satisfies the documented vectors
`("21.0","3.21.0") = true`, `("3.13.0-rc3","3.13.0") = true`,
`("3.14.0-rc2","3.14.0") = false`, `("21.0-rc1","") = true`. -/
theorem c5_compare_versions_vectors :
    compare_versions "21.0" "3.21.0" = true ∧
    compare_versions "3.13.0-rc3" "3.13.0" = true ∧
    compare_versions "3.14.0-rc2" "3.14.0" = false ∧
    compare_versions "21.0-rc1" "" = true :=
  ⟨rfl, rfl, rfl, rfl⟩

/-- C7: the Layout Resolver is pure and total, and exactly the eleven
legacy versions place the binary in the install root with the resource
path equal to the root, while every other version uses `bin/` and
`include/`. -/
theorem c7_layout_resolver_eras (version os : String) (root : List String) :
    (is_binary_in_root version = true ↔ version ∈ legacy_versions) ∧
    (version ∈ legacy_versions →
      get_bin_path os version root = root ++ [protoc_binary_name os] ∧
      get_include_path version (get_bin_path os version root) = root) ∧
    (version ∉ legacy_versions →
      get_bin_path os version root = root ++ ["bin", protoc_binary_name os] ∧
      get_include_path version (get_bin_path os version root) =
        root ++ ["include"]) := by
  have hiff : is_binary_in_root version = true ↔ version ∈ legacy_versions := by
    simp only [is_binary_in_root, legacy_versions, Bool.or_eq_true, beq_iff_eq,
      List.mem_cons, List.not_mem_nil, or_false]
    tauto
  refine ⟨hiff, ?_, ?_⟩
  · intro hmem
    have hb : is_binary_in_root version = true := hiff.mpr hmem
    exact ⟨by simp [get_bin_path, hb],
           by simp [get_bin_path, get_include_path, hb]⟩
  · intro hmem
    have hb : is_binary_in_root version = false := by
      cases h : is_binary_in_root version
      · rfl
      · exact absurd (hiff.mp h) hmem
    exact ⟨by simp [get_bin_path, hb],
           by simp [get_bin_path, get_include_path, hb]⟩

/-- Witness for C7 at the legacy version `2.4.1` and the modern version
`22.0` with install root `["opt"]` on linux. -/
theorem c7_layout_resolver_eras_witness :
    (get_bin_path "linux" "2.4.1" ["opt"] = ["opt", "protoc"] ∧
      get_include_path "2.4.1" (get_bin_path "linux" "2.4.1" ["opt"]) = ["opt"]) ∧
    (get_bin_path "linux" "22.0" ["opt"] = ["opt", "bin", "protoc"] ∧
      get_include_path "22.0" (get_bin_path "linux" "22.0" ["opt"]) =
        ["opt", "include"]) :=
  ⟨(c7_layout_resolver_eras "2.4.1" "linux" ["opt"]).2.1 (by decide),
   (c7_layout_resolver_eras "22.0" "linux" ["opt"]).2.2 (by decide)⟩

/-- C8: the Version Normalizer is total: a version without the `rc`
marker is returned unchanged; the four literal exceptions map as
documented; any other version containing `rc` is split at the first
occurrence of `rc` and rejoined as `<prefix>rc-<suffix>`, e.g.
`22.0-rc3` gives `22.0-rc-3`. -/
theorem c8_version_normalizer (version : String) :
    (strContains version "rc" = false → prepare_asset_version version = version) ∧
    (prepare_asset_version "3.7.0-rc.3" = "3.7.0-rc-3" ∧
     prepare_asset_version "3.7.0rc2" = "3.7.0-rc-2" ∧
     prepare_asset_version "3.7.0rc1" = "3.7.0-rc1" ∧
     prepare_asset_version "3.2.0rc2" = "3.2.0rc2") ∧
    (∀ pre post,
      strContains version "rc" = true →
      version ≠ "3.7.0-rc.3" → version ≠ "3.7.0rc2" →
      version ≠ "3.7.0rc1" → version ≠ "3.2.0rc2" →
      split_once version "rc" = some (pre, post) →
      prepare_asset_version version = pre ++ "rc-" ++ post) ∧
    prepare_asset_version "22.0-rc3" = "22.0-rc-3" := by
  refine ⟨?_, ⟨rfl, rfl, rfl, rfl⟩, ?_, rfl⟩
  · intro h
    simp [prepare_asset_version, h]
  · intro pre post hc h1 h2 h3 h4 hs
    simp [prepare_asset_version, hc, h1, h2, h3, h4, hs]

/-- Witness for C8 at `22.0-rc3` (general rule) and at `3.5.0`
(no marker). -/
theorem c8_version_normalizer_witness :
    prepare_asset_version "3.5.0" = "3.5.0" ∧
    prepare_asset_version "22.0-rc3" = "22.0-" ++ "rc-" ++ "3" :=
  ⟨(c8_version_normalizer "3.5.0").1 (by decide),
   (c8_version_normalizer "22.0-rc3").2.2.1 "22.0-" "3" (by decide)
     (by decide) (by decide) (by decide) (by decide) (by decide)⟩

/-- C9: the Override Resolver returns no-override for an unset variable;
a set variable whose path does not exist yields a `ForcePath` error whose
message contains "nothing exists"; the binary override pointing at a
directory yields a message containing "directory found"; the include
override pointing at a file yields a message containing "file found";
otherwise the given path is returned. -/
theorem c9_override_resolver (fs : String → Option Metadata) (e : VarErr)
    (p : String) :
    check_force_bin (.error e) fs = .ok none ∧
    check_force_include (.error e) fs = .ok none ∧
    (fs p = none → ∃ msg,
      check_force_bin (.ok p) fs = .error (.ForcePath msg) ∧
      HasSubstring msg "nothing exists") ∧
    (fs p = none → ∃ msg,
      check_force_include (.ok p) fs = .error (.ForcePath msg) ∧
      HasSubstring msg "nothing exists") ∧
    (fs p = some .dir → ∃ msg,
      check_force_bin (.ok p) fs = .error (.ForcePath msg) ∧
      HasSubstring msg "directory found") ∧
    (fs p = some .file → ∃ msg,
      check_force_include (.ok p) fs = .error (.ForcePath msg) ∧
      HasSubstring msg "file found") ∧
    (∀ attr, fs p = some attr → attr ≠ .dir →
      check_force_bin (.ok p) fs = .ok (some p)) ∧
    (∀ attr, fs p = some attr → attr ≠ .file →
      check_force_include (.ok p) fs = .ok (some p)) := by
  refine ⟨rfl, rfl, ?_, ?_, ?_, ?_, ?_, ?_⟩
  · intro h
    refine ⟨"nothing exists by PROTOC_PREBUILT_FORCE_PROTOC_PATH path " ++ p, ?_, ?_⟩
    · simp [check_force_bin, h]
    · exact ⟨"", " by PROTOC_PREBUILT_FORCE_PROTOC_PATH path " ++ p, by rfl⟩
  · intro h
    refine ⟨"nothing exists by PROTOC_PREBUILT_FORCE_INCLUDE_PATH path " ++ p, ?_, ?_⟩
    · simp [check_force_include, h]
    · exact ⟨"", " by PROTOC_PREBUILT_FORCE_INCLUDE_PATH path " ++ p, by rfl⟩
  · intro h
    refine ⟨"directory found by PROTOC_PREBUILT_FORCE_PROTOC_PATH path " ++ p, ?_, ?_⟩
    · simp [check_force_bin, h]
    · exact ⟨"", " by PROTOC_PREBUILT_FORCE_PROTOC_PATH path " ++ p, by rfl⟩
  · intro h
    refine ⟨"file found by PROTOC_PREBUILT_FORCE_INCLUDE_PATH path " ++ p, ?_, ?_⟩
    · simp [check_force_include, h]
    · exact ⟨"", " by PROTOC_PREBUILT_FORCE_INCLUDE_PATH path " ++ p, by rfl⟩
  · intro attr h hne
    simp [check_force_bin, h, hne]
  · intro attr h hne
    simp [check_force_include, h, hne]

/-- Witness for C9: concrete filesystems exercising every branch. -/
theorem c9_override_resolver_witness :
    (∃ msg, check_force_bin (.ok "p") (fun _ => none) = .error (.ForcePath msg) ∧
      HasSubstring msg "nothing exists") ∧
    (∃ msg, check_force_include (.ok "p") (fun _ => none) = .error (.ForcePath msg) ∧
      HasSubstring msg "nothing exists") ∧
    (∃ msg, check_force_bin (.ok "p") (fun _ => some .dir) = .error (.ForcePath msg) ∧
      HasSubstring msg "directory found") ∧
    (∃ msg, check_force_include (.ok "p") (fun _ => some .file) = .error (.ForcePath msg) ∧
      HasSubstring msg "file found") ∧
    check_force_bin (.ok "p") (fun _ => some .file) = .ok (some "p") ∧
    check_force_include (.ok "p") (fun _ => some .dir) = .ok (some "p") :=
  ⟨(c9_override_resolver (fun _ => none) .notPresent "p").2.2.1 rfl,
   (c9_override_resolver (fun _ => none) .notPresent "p").2.2.2.1 rfl,
   (c9_override_resolver (fun _ => some .dir) .notPresent "p").2.2.2.2.1 rfl,
   (c9_override_resolver (fun _ => some .file) .notPresent "p").2.2.2.2.2.1 rfl,
   (c9_override_resolver (fun _ => some .file) .notPresent "p").2.2.2.2.2.2.1
     .file rfl (by decide),
   (c9_override_resolver (fun _ => some .dir) .notPresent "p").2.2.2.2.2.2.2
     .dir rfl (by decide)⟩

/-- C2 counterexample: at `("21.12","windows","x86_64")` the resolver
returns `protoc-21.12-win64`, which is not the claimed concatenation
`protoc-<version><sep><os><sep><arch>` with a single OS-dependent
separator `<sep>` (empty on windows) in both positions: the separator
after the version part is a hyphen even on windows. -/
theorem c2_counterexample_windows_separator :
    get_protoc_asset_name "21.12" "windows" "x86_64" = .ok "protoc-21.12-win64" ∧
    "protoc-" ++ prepare_asset_version "21.12" ++ os_arch_delimiter "windows" ++
      "win" ++ os_arch_delimiter "windows" ++ "64" ≠ "protoc-21.12-win64" :=
  ⟨rfl, by decide⟩

/-- C2 (amended): for every valid triple the resolved asset name is
`protoc-<normalized-version>-<os-spelling><sep><arch-spelling>`, where the
separator after the version is always a hyphen and only the separator
`<sep>` between OS-spelling and architecture-spelling is the empty string
for windows and a hyphen for the other operating systems. -/
theorem c2_asset_name_concatenation (version os arch aos aarch : String)
    (hos : asset_os os = some aos)
    (harch : asset_arch version os arch = some aarch) :
    get_protoc_asset_name version os arch =
      .ok ("protoc-" ++ prepare_asset_version version ++ "-" ++ aos ++
           os_arch_delimiter os ++ aarch) ∧
    os_arch_delimiter os = (if os = "windows" then "" else "-") := by
  constructor
  · simp [get_protoc_asset_name, hos, harch]
  · by_cases h : os = "windows"
    · subst h; rfl
    · rw [if_neg h]
      unfold os_arch_delimiter
      split
      · exact absurd rfl h
      · rfl

/-- Witness for C2 at `("22.0","linux","x86")`. -/
theorem c2_asset_name_concatenation_witness :
    get_protoc_asset_name "22.0" "linux" "x86" =
      .ok ("protoc-" ++ prepare_asset_version "22.0" ++ "-" ++ "linux" ++
           os_arch_delimiter "linux" ++ "x86_32") ∧
    os_arch_delimiter "linux" = (if ("linux" : String) = "windows" then "" else "-") :=
  c2_asset_name_concatenation "22.0" "linux" "x86" "linux" "x86_32" rfl rfl

/-- C3: whenever the install directory (the `OUT_DIR` root joined with
the resolved asset name) already exists, `init` performs no effect at
all — no network request, no archive write, no extraction — and returns
the derived paths successfully. -/
theorem c3_init_skips_install_when_dir_exists (w : World)
    (os arch version out_dir name : String)
    (hout : w.out_dir = some out_dir)
    (hname : get_protoc_asset_name version os arch = .ok name)
    (hexists : w.pathExists (joinPath out_dir name) = true) :
    init w os arch version =
      (.ok (joinPath (joinPath (joinPath out_dir name) "bin")
              (protoc_binary_name os),
            joinPath (joinPath out_dir name) "include"), []) := by
  unfold init
  rw [hout, hname]
  simp only [hexists, Bool.not_true, Bool.false_eq_true, if_false]

/-- A world where every path exists and every request fails at transport
level: `init` must succeed without touching the network. -/
def already_installed_world : World :=
  ⟨fun _ => .transport, fun _ => true, some "out",
   fun _ => true, fun _ => true, true, true, fun _ => true⟩

/-- Witness for C3: with the install directory present, `init` returns
the derived paths and an empty effect trace. -/
theorem c3_init_skips_install_when_dir_exists_witness :
    init already_installed_world "linux" "x86_64" "22.0" =
      (.ok ("out/protoc-22.0-linux-x86_64/bin/protoc",
            "out/protoc-22.0-linux-x86_64/include"), []) := by
  exact c3_init_skips_install_when_dir_exists already_installed_world
    "linux" "x86_64" "22.0" "out" "protoc-22.0-linux-x86_64" rfl rfl rfl

/-- C4: during install, a 404 from the release-tag existence query yields
`NonExistsVersion`; a 404 from the asset download yields
`NonExistsPlatformVersion`; any other non-success status from either
request yields `GitHubApi` carrying the status code and body text. -/
theorem c4_install_http_error_taxonomy (w : World)
    (version out_dir protoc_asset_name protoc_out_dir body : String)
    (code : Nat) :
    (w.http (version_tag_url version) = .status 404 body →
      install w version out_dir protoc_asset_name protoc_out_dir =
        (.error (.NonExistsVersion version),
         [.request (version_tag_url version)])) ∧
    (w.http (version_tag_url version) = .status code body → code ≠ 404 →
      install w version out_dir protoc_asset_name protoc_out_dir =
        (.error (.GitHubApi code body),
         [.request (version_tag_url version)])) ∧
    (∀ okbody, w.http (version_tag_url version) = .success okbody →
      w.http (asset_download_url version (protoc_asset_name ++ ".zip")) =
        .status 404 body →
      install w version out_dir protoc_asset_name protoc_out_dir =
        (.error (.NonExistsPlatformVersion version),
         [.request (version_tag_url version),
          .request (asset_download_url version (protoc_asset_name ++ ".zip"))])) ∧
    (∀ okbody, w.http (version_tag_url version) = .success okbody →
      w.http (asset_download_url version (protoc_asset_name ++ ".zip")) =
        .status code body →
      code ≠ 404 →
      install w version out_dir protoc_asset_name protoc_out_dir =
        (.error (.GitHubApi code body),
         [.request (version_tag_url version),
          .request (asset_download_url version (protoc_asset_name ++ ".zip"))])) := by
  refine ⟨?_, ?_, ?_, ?_⟩
  · intro h
    simp [install, check_version_exists, h]
  · intro h hne
    simp [install, check_version_exists, h, hne]
  · intro okbody h1 h2
    simp [install, check_version_exists, download, h1, h2]
  · intro okbody h1 h2 hne
    simp [install, check_version_exists, download, h1, h2, hne]

/-- A world whose release-tag query answers 404. -/
def tag_404_world : World :=
  ⟨fun _ => .status 404 "not found", fun _ => false, some "out",
   fun _ => true, fun _ => true, true, true, fun _ => true⟩

/-- A world whose release-tag query answers 500. -/
def tag_500_world : World :=
  ⟨fun _ => .status 500 "server error", fun _ => false, some "out",
   fun _ => true, fun _ => true, true, true, fun _ => true⟩

/-- A world where the tag exists but the asset download answers 404. -/
def asset_404_world : World :=
  ⟨fun url => if url = version_tag_url "3.19.4" then .success "tag"
              else .status 404 "not found",
   fun _ => false, some "out",
   fun _ => true, fun _ => true, true, true, fun _ => true⟩

/-- A world where the tag exists but the asset download answers 500. -/
def asset_500_world : World :=
  ⟨fun url => if url = version_tag_url "3.19.4" then .success "tag"
              else .status 500 "server error",
   fun _ => false, some "out",
   fun _ => true, fun _ => true, true, true, fun _ => true⟩

/-- Witness for C4: the four error branches at concrete worlds. -/
theorem c4_install_http_error_taxonomy_witness :
    install tag_404_world "0.1.0" "out" "a" "out/a" =
      (.error (.NonExistsVersion "0.1.0"),
       [.request (version_tag_url "0.1.0")]) ∧
    install tag_500_world "0.1.0" "out" "a" "out/a" =
      (.error (.GitHubApi 500 "server error"),
       [.request (version_tag_url "0.1.0")]) ∧
    install asset_404_world "3.19.4" "out" "a" "out/a" =
      (.error (.NonExistsPlatformVersion "3.19.4"),
       [.request (version_tag_url "3.19.4"),
        .request (asset_download_url "3.19.4" ("a" ++ ".zip"))]) ∧
    install asset_500_world "3.19.4" "out" "a" "out/a" =
      (.error (.GitHubApi 500 "server error"),
       [.request (version_tag_url "3.19.4"),
        .request (asset_download_url "3.19.4" ("a" ++ ".zip"))]) :=
  ⟨(c4_install_http_error_taxonomy tag_404_world "0.1.0" "out" "a" "out/a"
      "not found" 404).1 rfl,
   (c4_install_http_error_taxonomy tag_500_world "0.1.0" "out" "a" "out/a"
      "server error" 500).2.1 rfl (by decide),
   (c4_install_http_error_taxonomy asset_404_world "3.19.4" "out" "a" "out/a"
      "not found" 404).2.2.1 "tag" rfl (by decide),
   (c4_install_http_error_taxonomy asset_500_world "3.19.4" "out" "a" "out/a"
      "server error" 500).2.2.2 "tag" rfl (by decide) (by decide)⟩

/-! ### Helper lemmas for reasoning about abstract version strings -/

theorem strStartsWith_iff (s p : String) :
    strStartsWith s p = true ↔ p.data <+: s.data := by
  simp [strStartsWith]

theorem startsWith_false_of_conflict {v p q : String}
    (h : strStartsWith v p = true)
    (h1 : ¬(p.data <+: q.data)) (h2 : ¬(q.data <+: p.data)) :
    strStartsWith v q = false := by
  rw [strStartsWith_iff] at h
  cases hq : strStartsWith v q
  · rfl
  · rw [strStartsWith_iff] at hq
    rcases List.prefix_or_prefix_of_prefix hq h with hc | hc
    · exact absurd hc h2
    · exact absurd hc h1

theorem ne_lit_of_startsWith {v p lit : String} (h : strStartsWith v p = true)
    (hlit : strStartsWith lit p = false) : v ≠ lit := by
  rintro rfl
  exact Bool.noConfusion (h.symm.trans hlit)

theorem ne_empty_of_startsWith {v p : String} (h : strStartsWith v p = true)
    (hp : p ≠ "") : v ≠ "" := by
  rw [strStartsWith_iff] at h
  rintro rfl
  exact hp (String.ext (List.prefix_nil.mp h))

theorem append3_ne_self (v : String) : "3." ++ v ≠ v := by
  intro e
  have h := congrArg (fun s => s.data.length) e
  simp at h
  omega

theorem append3_ne_empty (v : String) : "3." ++ v ≠ "" := by
  intro e
  have h := congrArg String.data e
  simp at h

/-- C6 counterexample: `22.0` has a two-part numeric prefix below 100 and
is in no exception table, yet the comparator rejects the pair
`("22.0", "3.22.0")`: the added-leading-`3.` transform is not applied to
it (only `21.*` receives the transform; `22.0` self-reports as `22.0`). -/
theorem c6_counterexample_22 :
    compare_versions "22.0" ("3." ++ "22.0") = false := rfl

/-- C6 (amended): the added-leading-`3.` transform is applied exactly to
the versions starting with `21.`: for every such version v the comparator
accepts the self-report `"3." ++ v`. -/
theorem c6_leading_three_transform (v : String)
    (h : strStartsWith v "21." = true) :
    compare_versions v ("3." ++ v) = true := by
  have n1 : v ≠ "3.0.2" := ne_lit_of_startsWith h (by decide)
  have n2 : v ≠ "3.10.0-rc1" := ne_lit_of_startsWith h (by decide)
  have n3 : v ≠ "3.12.2" := ne_lit_of_startsWith h (by decide)
  have n4 : v ≠ "3.19.0-rc2" := ne_lit_of_startsWith h (by decide)
  have n5 : v ≠ "3.2.0rc2" := ne_lit_of_startsWith h (by decide)
  have n6 : v ≠ "3.7.0rc1" := ne_lit_of_startsWith h (by decide)
  have n7 : v ≠ "3.7.0rc2" := ne_lit_of_startsWith h (by decide)
  have n8 : v ≠ "3.7.0-rc.3" := ne_lit_of_startsWith h (by decide)
  have s1 : strStartsWith v "3.8." = false :=
    startsWith_false_of_conflict h (by decide) (by decide)
  have s2 : strStartsWith v "3.9." = false :=
    startsWith_false_of_conflict h (by decide) (by decide)
  have s3 : strStartsWith v "3.10." = false :=
    startsWith_false_of_conflict h (by decide) (by decide)
  have s4 : strStartsWith v "3.11." = false :=
    startsWith_false_of_conflict h (by decide) (by decide)
  have s5 : strStartsWith v "3.12." = false :=
    startsWith_false_of_conflict h (by decide) (by decide)
  have s6 : strStartsWith v "3.13." = false :=
    startsWith_false_of_conflict h (by decide) (by decide)
  simp [compare_versions, n1, n2, n3, n4, n5, n6, n7, n8,
    s1, s2, s3, s4, s5, s6, h, append3_ne_empty v]

/-- Witness for C6 at `21.12`: the comparator accepts `3.21.12`. -/
theorem c6_leading_three_transform_witness :
    compare_versions "21.12" ("3." ++ "21.12") = true :=
  c6_leading_three_transform "21.12" rfl

/-- C10: the Version Comparator is not reflexive on `21.*` versions: for
every version string starting with `21.` the comparator rejects the pair
`(v, v)`, because the `21.*` branch accepts only `"3." ++ v` and the
exact-equality fallback is never reached. -/
theorem c10_compare_not_reflexive_on_21x (v : String)
    (h : strStartsWith v "21." = true) :
    compare_versions v v = false := by
  have n1 : v ≠ "3.0.2" := ne_lit_of_startsWith h (by decide)
  have n2 : v ≠ "3.10.0-rc1" := ne_lit_of_startsWith h (by decide)
  have n3 : v ≠ "3.12.2" := ne_lit_of_startsWith h (by decide)
  have n4 : v ≠ "3.19.0-rc2" := ne_lit_of_startsWith h (by decide)
  have n5 : v ≠ "3.2.0rc2" := ne_lit_of_startsWith h (by decide)
  have n6 : v ≠ "3.7.0rc1" := ne_lit_of_startsWith h (by decide)
  have n7 : v ≠ "3.7.0rc2" := ne_lit_of_startsWith h (by decide)
  have n8 : v ≠ "3.7.0-rc.3" := ne_lit_of_startsWith h (by decide)
  have ne : v ≠ "" := ne_empty_of_startsWith h (by decide)
  have s1 : strStartsWith v "3.8." = false :=
    startsWith_false_of_conflict h (by decide) (by decide)
  have s2 : strStartsWith v "3.9." = false :=
    startsWith_false_of_conflict h (by decide) (by decide)
  have s3 : strStartsWith v "3.10." = false :=
    startsWith_false_of_conflict h (by decide) (by decide)
  have s4 : strStartsWith v "3.11." = false :=
    startsWith_false_of_conflict h (by decide) (by decide)
  have s5 : strStartsWith v "3.12." = false :=
    startsWith_false_of_conflict h (by decide) (by decide)
  have s6 : strStartsWith v "3.13." = false :=
    startsWith_false_of_conflict h (by decide) (by decide)
  simp [compare_versions, n1, n2, n3, n4, n5, n6, n7, n8, ne,
    s1, s2, s3, s4, s5, s6, h, append3_ne_self v]

/-- Witness for C10 at `21.12`. -/
theorem c10_compare_not_reflexive_on_21x_witness :
    compare_versions "21.12" "21.12" = false :=
  c10_compare_not_reflexive_on_21x "21.12" rfl

end Protoc
